import Mathlib

/-!
Shallow embedding of the attention-mechanism selection and fallback core of
`src/model.py` (a nanoGPT variant), together with its rotary positional
encoder, model forward pipeline, block-size truncation and generation step.
Each definition mirrors one Python function or code path; theorems settle the
specification claims about them.
-/

namespace NanoGPT

/-- `GPTConfig` dataclass (model.py lines 391-406): the fields the claims
touch.  `dropout`/`bias`/numeric hyperparameters that play no role in the
control flow under verification are omitted. -/
structure GPTConfig where
  block_size : Nat
  n_layer : Nat
  n_head : Nat
  n_embd : Nat
  use_layer_norm : Bool
  use_rope : Bool
  use_flash_attn : Bool
  use_sparse_attn : Bool
  use_mqa : Bool
deriving Repr, DecidableEq

/-- Runtime environment facts that `CausalSelfAttention.__init__` probes:
whether `torch.nn.functional.scaled_dot_product_attention` exists
(line 95 and 105-106), whether constructing the DeepSpeed
`SparseSelfAttention` backend succeeds (lines 129-204; `sparseInitOk = false`
covers every failure path: modern import/AttributeError followed by legacy
failure, or any other exception caught by the outer handler at line 206),
and whether opening/writing the diagnostic error-log file succeeds
(lines 195-196 and 212-213; both `open` calls sit inside `except` handlers
with no protection of their own). -/
structure InitEnv where
  sdpaAvailable : Bool
  sparseInitOk : Bool
  logWriteOk : Bool
deriving Repr, DecidableEq

/-- The `_active_attn_mechanism` string recorded by `__init__`
(lines 73, 157, 187, 204, 221, 240, 245).  The spec's `ActiveMechanism`
enumeration maps `deepspeed_sparse ↦ Sparse`, `flash ↦ Flash`,
`standard ↦ Dense`, `standard_fallback ↦ SparseFallbackDense`. -/
inductive Mechanism
  | unknown
  | deepspeed_sparse
  | flash
  | standard_fallback
  | standard
deriving Repr, DecidableEq

/-- The attributes of a constructed `CausalSelfAttention` layer that the
claims observe, as left behind by `__init__`. -/
structure AttnLayerState where
  n_head : Nat
  n_embd : Nat
  use_rope : Bool
  use_mqa : Bool
  /-- `self.use_flash_attn` (line 105-106): config flag AND sdpa present. -/
  use_flash_attn : Bool
  /-- `self.use_sparse_attn` (line 103, possibly cleared at 203/220). -/
  use_sparse_attn : Bool
  /-- `self.ds_sparse_attn is not None` (lines 124, 151/181 set it, 202/219 clear it). -/
  hasSparseBackend : Bool
  /-- the causal-mask buffer `self.bias` was registered (lines 115-117:
  registered exactly when `not self.use_flash_attn`; the pre-2.0 branch at
  96-100 only re-registers it in a case already covered). -/
  hasBiasMask : Bool
  mechanism : Mechanism
  /-- error-log files written during construction (lines 195-196, 212-213). -/
  logWrites : List String
  /-- operator-visible diagnostic lines printed on the fallback path
  (lines 198-200 / 215-217). -/
  notices : List String
deriving Repr, DecidableEq

/-- `CausalSelfAttention.__init__` (model.py lines 64-248), restricted to the
backend-selection outcome.  The result is `Except`: `Except.error` means a
Python exception escaped `__init__` to the caller.  The only escaping path is
the unprotected `open(self.error_log_file, "w")` inside the failure handlers
(line 195 or 212): when the sparse backend fails AND the log write itself
raises, that OSError propagates before `self.use_sparse_attn = False` /
`self._active_attn_mechanism = "standard_fallback"` run. -/
def attnInit (cfg : GPTConfig) (env : InitEnv) : Except String AttnLayerState :=
  -- line 105-106
  let useFlash := cfg.use_flash_attn && env.sdpaAvailable
  -- lines 115-117
  let hasBias := !useFlash
  if cfg.use_sparse_attn then
    if env.sparseInitOk then
      -- lines 151-158 (or 181-188): backend constructed, mechanism recorded
      Except.ok
        { n_head := cfg.n_head, n_embd := cfg.n_embd
          use_rope := cfg.use_rope, use_mqa := cfg.use_mqa
          use_flash_attn := useFlash, use_sparse_attn := true
          hasSparseBackend := true, hasBiasMask := hasBias
          mechanism := .deepspeed_sparse, logWrites := [], notices := [] }
    else if env.logWriteOk then
      -- lines 190-204 / 206-221: log, print, clear the flag, fall back
      Except.ok
        { n_head := cfg.n_head, n_embd := cfg.n_embd
          use_rope := cfg.use_rope, use_mqa := cfg.use_mqa
          use_flash_attn := useFlash, use_sparse_attn := false
          hasSparseBackend := false, hasBiasMask := hasBias
          mechanism := .standard_fallback
          logWrites := ["deepspeed_error_<timestamp>.log"]
          notices := ["ATTENTION MECHANISM: Falling back to standard attention"] }
    else
      -- the `with open(self.error_log_file, "w")` itself raised: nothing
      -- catches it, __init__ aborts
      Except.error "OSError: could not open error log file"
  else if useFlash then
    Except.ok
      { n_head := cfg.n_head, n_embd := cfg.n_embd
        use_rope := cfg.use_rope, use_mqa := cfg.use_mqa
        use_flash_attn := useFlash, use_sparse_attn := false
        hasSparseBackend := false, hasBiasMask := hasBias
        mechanism := .flash, logWrites := [], notices := [] }
  else
    Except.ok
      { n_head := cfg.n_head, n_embd := cfg.n_embd
        use_rope := cfg.use_rope, use_mqa := cfg.use_mqa
        use_flash_attn := useFlash, use_sparse_attn := false
        hasSparseBackend := false, hasBiasMask := hasBias
        mechanism := .standard, logWrites := [], notices := [] }

/-- Which attention computation a forward call executes. -/
inductive Backend
  | flashKernel
  | sparseKernel
  | denseMath
deriving Repr, DecidableEq

/-- The branch structure of `CausalSelfAttention.forward` lines 293-349:
`if self.use_flash_attn: ... elif self.use_sparse_attn and
self.ds_sparse_attn is not None: ... else: ...`.  Note the dispatch tests
`use_flash_attn` FIRST, before the sparse branch. -/
def forwardBackendChoice (s : AttnLayerState) : Backend :=
  if s.use_flash_attn then .flashKernel
  else if s.use_sparse_attn && s.hasSparseBackend then .sparseKernel
  else .denseMath

/-- Shape of a rank-4 tensor, dims in order `(d0, d1, d2, d3)`. -/
structure Sh4 where
  d0 : Nat
  d1 : Nat
  d2 : Nat
  d3 : Nat
deriving Repr, DecidableEq

/-- `x.transpose(-2, -1)`: swap the last two dims. -/
def transposeLast2 (x : Sh4) : Sh4 := ⟨x.d0, x.d1, x.d3, x.d2⟩

/-- Batched matrix-multiply shape rule: `(b, h, m, k) @ (b, h, k, n) =
(b, h, m, n)`; mismatched batch dims or inner dims raise in torch, hence
`none`. -/
def bmmShape (x y : Sh4) : Option Sh4 :=
  if x.d0 = y.d0 ∧ x.d1 = y.d1 ∧ x.d3 = y.d2 then some ⟨x.d0, x.d1, x.d2, y.d3⟩
  else none

/-- `x.permute(2, 0, 1, 3)` (model.py lines 306-308: to DeepSpeed's
`[seq_len, batch, heads, head_size]` layout). -/
def permute_2013 (x : Sh4) : Sh4 := ⟨x.d2, x.d0, x.d1, x.d3⟩

/-- `x.permute(1, 2, 0, 3)` (model.py line 322: back to `[B, nh, T, hs]`). -/
def permute_1203 (x : Sh4) : Sh4 := ⟨x.d1, x.d2, x.d0, x.d3⟩

/-- Shape of the dense attention computation (model.py lines 344-349, and
verbatim again in the per-call fallback at lines 338-342):
`att = q @ k.transpose(-2,-1)`, then `masked_fill` / `softmax` / dropout
(all shape-preserving), then `y = att @ v`. -/
def denseAttnShape (q k v : Sh4) : Except String Sh4 := do
  let att ← match bmmShape q (transposeLast2 k) with
    | some a => Except.ok a
    | none => Except.error "RuntimeError: matmul shape mismatch"
  match bmmShape att v with
    | some y => Except.ok y
    | none => Except.error "RuntimeError: matmul shape mismatch"

/-- What one `CausalSelfAttention.forward` call produces, besides the tensor
itself: which computation ran, the returned tensor's shape, the mechanism
field after the call (`forward` never assigns `_active_attn_mechanism`),
and the diagnostic effects. -/
structure AttnCallResult where
  backendUsed : Backend
  outShape : Nat × Nat × Nat
  mechanismAfter : Mechanism
  logWrites : List String
  notices : List String
deriving Repr, DecidableEq

/-- `CausalSelfAttention.forward` (model.py lines 256-354) at the level of
shapes and effects.  `sparseCallOk = false` means the DeepSpeed sparse call
at line 315 throws; `logWriteOk = false` means the `open(forward_error_file,
"w")` at line 330 throws (it is inside the `except` handler, unprotected, so
it escapes).  Input `x` has shape `(B, T, C)`; both QKV layouts (standard
lines 283-286, MQA lines 268-280) produce q, k, v of shape
`(B, n_head, T, hs)` with `hs = C // n_head` (standard) or
`n_embd // n_head` (MQA).  RoPE (lines 288-291) is elementwise and
shape-preserving.  The final reshape (line 352) is
`y.transpose(1, 2).contiguous().view(B, T, C)`, which torch accepts exactly
when the element counts agree. -/
def attnForward (s : AttnLayerState) (sparseCallOk logWriteOk : Bool)
    (B T C : Nat) : Except String AttnCallResult := do
  let hs := if s.use_mqa then s.n_embd / s.n_head else C / s.n_head
  let q : Sh4 := ⟨B, s.n_head, T, hs⟩
  let k := q
  let v := q
  let (y, used, logs, msgs) ←
    (match forwardBackendChoice s with
    | Backend.flashKernel =>
      -- lines 294-301: fused sdpa, output has q's shape
      Except.ok (q, Backend.flashKernel, ([] : List String), ([] : List String))
    | Backend.sparseKernel =>
      if sparseCallOk then
        -- lines 304-322: permute in, sparse kernel (shape-preserving),
        -- permute back
        Except.ok (permute_1203 (permute_2013 q), Backend.sparseKernel,
          ([] : List String), ([] : List String))
      else if logWriteOk then do
        -- lines 323-342: catch, log, print, recompute densely for this call
        if s.hasBiasMask then
          let yd ← denseAttnShape q k v
          Except.ok (yd, Backend.denseMath,
            ["deepspeed_forward_error_<timestamp>.log"],
            ["ERROR: DeepSpeed sparse attention failed during forward pass",
             "Falling back to standard attention for this forward pass"])
        else
          -- line 339 would raise AttributeError on a layer with no mask
          Except.error "AttributeError: no attribute bias"
      else
        -- line 330: the open() inside the except handler raised; it escapes
        Except.error "OSError: could not open forward error log file"
    | Backend.denseMath =>
      -- lines 343-349
      if s.hasBiasMask then do
        let yd ← denseAttnShape q k v
        Except.ok (yd, Backend.denseMath, ([] : List String), ([] : List String))
      else
        Except.error "AttributeError: no attribute bias")
  -- line 352: y.transpose(1, 2).contiguous().view(B, T, C)
  let yt : Sh4 := ⟨y.d0, y.d2, y.d1, y.d3⟩
  if yt.d0 * yt.d1 * (yt.d2 * yt.d3) = B * T * C then
    Except.ok { backendUsed := used, outShape := (B, T, C)
                mechanismAfter := s.mechanism, logWrites := logs
                notices := msgs }
  else
    Except.error "RuntimeError: view size mismatch"

/-- A concrete config with both `use_sparse_attn` and `use_flash_attn` set. -/
def cfgBothOn : GPTConfig :=
  { block_size := 8, n_layer := 1, n_head := 2, n_embd := 4
    use_layer_norm := true, use_rope := false
    use_flash_attn := true, use_sparse_attn := true, use_mqa := false }

/-- Same config with the flash flag off. -/
def cfgSparseOnly : GPTConfig := { cfgBothOn with use_flash_attn := false }

/-- Environment where sdpa is present, the sparse backend constructs, and
log writes succeed. -/
def envAllOk : InitEnv := ⟨true, true, true⟩

/-- Environment where the sparse backend fails to construct but the error
log is writable. -/
def envInitFailLogOk : InitEnv := ⟨true, false, true⟩

/-- Environment where the sparse backend fails to construct AND the error
log file cannot be opened. -/
def envInitFailLogFail : InitEnv := ⟨true, false, false⟩

/-- The layer state `attnInit cfgBothOn envAllOk` produces. -/
def layerBothOn : AttnLayerState :=
  { n_head := 2, n_embd := 4, use_rope := false, use_mqa := false
    use_flash_attn := true, use_sparse_attn := true
    hasSparseBackend := true, hasBiasMask := false
    mechanism := .deepspeed_sparse, logWrites := [], notices := [] }

/-- The layer state `attnInit cfgSparseOnly envAllOk` produces. -/
def layerSparseActive : AttnLayerState :=
  { n_head := 2, n_embd := 4, use_rope := false, use_mqa := false
    use_flash_attn := false, use_sparse_attn := true
    hasSparseBackend := true, hasBiasMask := true
    mechanism := .deepspeed_sparse, logWrites := [], notices := [] }

/-- Helper: a successfully sparse-initialized layer has the sparse flag,
the backend object, and (when flash is off) the causal-mask buffer. -/
theorem attnInit_sparse_success_state (cfg : GPTConfig) (env : InitEnv)
    (s : AttnLayerState) (hinit : attnInit cfg env = Except.ok s)
    (hmech : s.mechanism = Mechanism.deepspeed_sparse) :
    s.use_sparse_attn = true ∧ s.hasSparseBackend = true ∧
      s.hasBiasMask = !s.use_flash_attn := by
  simp only [attnInit] at hinit
  split at hinit
  · split at hinit
    · cases hinit
      exact ⟨rfl, rfl, rfl⟩
    · split at hinit
      · cases hinit
        simp at hmech
      · cases hinit
  · split at hinit
    · cases hinit
      simp at hmech
    · cases hinit
      simp at hmech

/-- C1: with `use_sparse_attn` and `use_flash_attn` both set, sdpa available
and the sparse backend successfully initialized, construction records
`deepspeed_sparse` as the active mechanism, yet the forward dispatch
(`if self.use_flash_attn` first, model.py line 294) executes the flash
kernel, never the sparse backend — contradicting the recorded mechanism and
its docstring. -/
theorem recorded_sparse_but_flash_runs :
    attnInit cfgBothOn envAllOk = Except.ok layerBothOn ∧
    layerBothOn.mechanism = Mechanism.deepspeed_sparse ∧
    forwardBackendChoice layerBothOn = Backend.flashKernel ∧
    (attnForward layerBothOn true true 1 4 4).map AttnCallResult.backendUsed
      = Except.ok Backend.flashKernel :=
  ⟨rfl, rfl, rfl, rfl⟩

/-- C2: whenever `use_sparse_attn` is set and sparse-backend construction
fails (and the diagnostic log sink is functional), `__init__` catches the
failure, writes a diagnostic log, prints operator-visible notices, clears
`use_sparse_attn`, records the `standard_fallback` mechanism
(spec: SparseFallbackDense), and construction succeeds. -/
theorem sparse_init_failure_graceful (cfg : GPTConfig) (env : InitEnv)
    (hs : cfg.use_sparse_attn = true) (hfail : env.sparseInitOk = false)
    (hlog : env.logWriteOk = true) :
    ∃ s, attnInit cfg env = Except.ok s ∧
      s.mechanism = Mechanism.standard_fallback ∧
      s.use_sparse_attn = false ∧
      s.hasSparseBackend = false ∧
      s.logWrites ≠ [] ∧
      s.notices ≠ [] := by
  refine ⟨{ n_head := cfg.n_head, n_embd := cfg.n_embd
            use_rope := cfg.use_rope, use_mqa := cfg.use_mqa
            use_flash_attn := cfg.use_flash_attn && env.sdpaAvailable
            use_sparse_attn := false, hasSparseBackend := false
            hasBiasMask := !(cfg.use_flash_attn && env.sdpaAvailable)
            mechanism := .standard_fallback
            logWrites := ["deepspeed_error_<timestamp>.log"]
            notices := ["ATTENTION MECHANISM: Falling back to standard attention"] },
          ?_, rfl, rfl, rfl, by simp, by simp⟩
  simp [attnInit, hs, hfail, hlog]

/-- Witness for C2 at a concrete config and environment. -/
theorem sparse_init_failure_graceful_witness :
    cfgSparseOnly.use_sparse_attn = true ∧
    envInitFailLogOk.sparseInitOk = false ∧
    envInitFailLogOk.logWriteOk = true ∧
    (∃ s, attnInit cfgSparseOnly envInitFailLogOk = Except.ok s ∧
      s.mechanism = Mechanism.standard_fallback ∧
      s.use_sparse_attn = false ∧
      s.hasSparseBackend = false ∧
      s.logWrites ≠ [] ∧
      s.notices ≠ []) :=
  ⟨rfl, rfl, rfl,
    sparse_init_failure_graceful cfgSparseOnly envInitFailLogOk rfl rfl rfl⟩

/-- C3: on a forward call in which the active sparse backend throws
(`sparseCallOk = false`) while the log sink works, the layer catches the
exception, writes a per-call error log, prints operator-visible messages,
recomputes the call with the dense masked-softmax algorithm, returns a
tensor of the input's shape `(B, T, C)`, and the recorded mechanism is
unchanged (`deepspeed_sparse`). -/
theorem sparse_forward_failure_recovers (cfg : GPTConfig) (env : InitEnv)
    (s : AttnLayerState) (hinit : attnInit cfg env = Except.ok s)
    (hmech : s.mechanism = Mechanism.deepspeed_sparse)
    (hflash : s.use_flash_attn = false)
    (B T C : Nat) (hembd : s.n_embd = C) (hdvd : s.n_head ∣ C) :
    ∃ r, attnForward s false true B T C = Except.ok r ∧
      r.backendUsed = Backend.denseMath ∧
      r.outShape = (B, T, C) ∧
      r.mechanismAfter = s.mechanism ∧
      r.logWrites ≠ [] ∧
      r.notices ≠ [] := by
  obtain ⟨hsp, hbk, hbias⟩ := attnInit_sparse_success_state cfg env s hinit hmech
  rw [hflash] at hbias
  have hchoice : forwardBackendChoice s = Backend.sparseKernel := by
    simp [forwardBackendChoice, hflash, hsp, hbk]
  have hhs : (if s.use_mqa then s.n_embd / s.n_head else C / s.n_head)
      = C / s.n_head := by
    cases s.use_mqa <;> simp [hembd]
  have hview : s.n_head * (C / s.n_head) = C := Nat.mul_div_cancel' hdvd
  refine ⟨{ backendUsed := Backend.denseMath, outShape := (B, T, C)
            mechanismAfter := s.mechanism
            logWrites := ["deepspeed_forward_error_<timestamp>.log"]
            notices := ["ERROR: DeepSpeed sparse attention failed during forward pass",
                        "Falling back to standard attention for this forward pass"] },
          ?_, rfl, rfl, rfl, by simp, by simp⟩
  simp only [attnForward, hchoice, hbias, hhs]
  simp [denseAttnShape, bmmShape, transposeLast2, Except.bind,
    Nat.mul_assoc, hview]
  simp [bind, Except.bind, hview]

/-- Witness for C3: a concrete sparse-active layer, a concrete failing call. -/
theorem sparse_forward_failure_recovers_witness :
    attnInit cfgSparseOnly envAllOk = Except.ok layerSparseActive ∧
    layerSparseActive.mechanism = Mechanism.deepspeed_sparse ∧
    layerSparseActive.use_flash_attn = false ∧
    layerSparseActive.n_embd = 4 ∧
    layerSparseActive.n_head ∣ 4 ∧
    (∃ r, attnForward layerSparseActive false true 1 3 4 = Except.ok r ∧
      r.backendUsed = Backend.denseMath ∧
      r.outShape = (1, 3, 4) ∧
      r.mechanismAfter = layerSparseActive.mechanism ∧
      r.logWrites ≠ [] ∧
      r.notices ≠ []) :=
  ⟨rfl, rfl, rfl, rfl, by decide,
    sparse_forward_failure_recovers cfgSparseOnly envAllOk layerSparseActive
      rfl rfl rfl 1 3 4 rfl (by decide)⟩

/-- C4: the diagnostic log writes on the failure paths are NOT best-effort.
At construction (model.py line 212) and on the per-call fallback (line 330)
the `open` sits inside the `except` handler with no protection: if it
raises, the exception escapes to the caller and the fallback assignments
never run — construction aborts, and the forward call fails instead of
recomputing densely. -/
theorem log_write_failure_escapes :
    attnInit cfgSparseOnly envInitFailLogFail
      = Except.error "OSError: could not open error log file" ∧
    attnForward layerSparseActive false false 1 3 4
      = Except.error "OSError: could not open forward error log file" :=
  ⟨rfl, rfl⟩

/-! ### Rotary positional encoder

Vectors are `List ℚ`.  The numeric engine's transcendental primitives —
`10000 ** x`, `cos`, `sin` — are abstract functions `ℚ → ℚ` passed in as
parameters (`rpow10000 x` stands for `10000 ** x`); everything else is the
source's own arithmetic.  All functions below are pure, mirroring the
side-effect-free Python code. -/

/-- `torch.arange(0, n, 2)` (model.py line 111). -/
def arangeStep2 (n : Nat) : List Nat :=
  (List.range n).filter (fun i => i % 2 == 0)

/-- `inv_freq = 1.0 / (10000 ** (torch.arange(0, head_dim, 2).float() /
head_dim))` (model.py line 111). -/
def inv_freq (rpow10000 : ℚ → ℚ) (head_dim : Nat) : List ℚ :=
  (arangeStep2 head_dim).map (fun (i : Nat) => 1 / rpow10000 ((i : ℚ) / (head_dim : ℚ)))

/-- Modelled from the spec's words: `inv_freq[j] = 1 / 10000^(2j/headdim)`
for `j in [0, headdim/2)`, to be compared with the code's `inv_freq`. -/
def inv_freq_spec (rpow10000 : ℚ → ℚ) (head_dim : Nat) : List ℚ :=
  (List.range (head_dim / 2)).map
    (fun (j : Nat) => 1 / rpow10000 ((2 * (j : ℚ)) / (head_dim : ℚ)))

/-- `CausalSelfAttention._get_rotary_embeddings` (model.py lines 250-254):
`t = arange(seq_len)`, `freqs = einsum('i,j->ij', t, inv_freq)`,
`emb = cat((freqs, freqs), dim=-1)`, return `emb.cos(), emb.sin()`.
`invf` is the registered `inv_freq` buffer. -/
def getRotaryEmbeddings (cosF sinF : ℚ → ℚ) (invf : List ℚ) (T : Nat) :
    List (List ℚ) × List (List ℚ) :=
  let freqs := (List.range T).map (fun (t : Nat) => invf.map (fun f => (t : ℚ) * f))
  let emb := freqs.map (fun row => row ++ row)
  (emb.map (fun row => row.map cosF), emb.map (fun row => row.map sinF))

/-- `_rotate_half` (model.py lines 42-46): `x1 = x[..., :n//2]`,
`x2 = x[..., n//2:]`, `cat((-x2, x1), dim=-1)`. -/
def rotate_half (x : List ℚ) : List ℚ :=
  let x1 := x.take (x.length / 2)
  let x2 := x.drop (x.length / 2)
  (x2.map fun a => -a) ++ x1

/-- `apply_rotary_pos_emb` (model.py lines 48-55) on one (head, position)
vector: `q_embed = (q * cos) + (_rotate_half(q) * sin)` and likewise for k
(the `unsqueeze` calls only arrange broadcasting and do not change the
per-vector arithmetic). -/
def apply_rotary_pos_emb (q k c s : List ℚ) : List ℚ × List ℚ :=
  (List.zipWith (· + ·) (List.zipWith (· * ·) q c)
     (List.zipWith (· * ·) (rotate_half q) s),
   List.zipWith (· + ·) (List.zipWith (· * ·) k c)
     (List.zipWith (· * ·) (rotate_half k) s))

/-- Modelled from the spec's words: one cos/sin table built by taking the
angles `t · inv_freq` for one position `t`, concatenating them with
themselves along the last axis, and applying `g` (cosine or sine)
elementwise; rows for `t in [0, T)`. -/
def rotaryTablesSpec (g : ℚ → ℚ) (invf : List ℚ) (T : Nat) : List (List ℚ) :=
  (List.range T).map (fun (t : Nat) =>
    (invf.map fun f => g ((t : ℚ) * f)) ++ (invf.map fun f => g ((t : ℚ) * f)))

/-- Helper: `arange(0, 2*m, 2)` enumerates `2*j` for `j < m`. -/
theorem arangeStep2_two_mul (m : Nat) :
    arangeStep2 (2 * m) = (List.range m).map (fun j => 2 * j) := by
  induction m with
  | zero => rfl
  | succ n ih =>
    have h2 : 2 * (n + 1) = (2 * n + 1) + 1 := by omega
    have heven : (2 * n) % 2 == 0 := by simp [Nat.mul_mod_right]
    have hodd : ¬((2 * n + 1) % 2 == 0) := by
      have : (2 * n + 1) % 2 = 1 := by omega
      simp [this]
    simp only [arangeStep2, h2, List.range_succ, List.filter_append,
      List.range_succ] at *
    simp only [List.filter_cons, List.filter_nil, heven, hodd]
    simp [ih, List.map_append]

/-- Helper: `rotate_half` preserves length. -/
theorem rotate_half_length (x : List ℚ) :
    (rotate_half x).length = x.length := by
  simp [rotate_half]
  omega

/-- Helper: `getD` through `zipWith` at an in-bounds index. -/
theorem getD_zipWith (f : ℚ → ℚ → ℚ) (a b : List ℚ) (i : Nat)
    (ha : i < a.length) (hb : i < b.length) :
    (List.zipWith f a b).getD i 0 = f (a.getD i 0) (b.getD i 0) := by
  have hlen : i < (List.zipWith f a b).length := by
    simp [List.length_zipWith]
    omega
  rw [List.getD_eq_getElem _ _ hlen, List.getD_eq_getElem _ _ ha,
    List.getD_eq_getElem _ _ hb, List.getElem_zipWith]

/-- C5: the rotary encoder computes exactly the specified function.
(1) the precomputed `inv_freq` equals the spec's
`j ↦ 1 / 10000^(2j/headdim)`, `j < headdim/2`;
(2) the per-call tables are the angles `t · inv_freq` concatenated with
themselves then passed through cosine / sine;
(3) `rotate_half` maps the split `(x1, x2)` to `(-x2, x1)`;
(4) `apply` returns, elementwise, `q*cos + rotate_half(q)*sin` and
`k*cos + rotate_half(k)*sin`. -/
theorem rope_matches_spec (rpow10000 cosF sinF : ℚ → ℚ) (m T : Nat) :
    inv_freq rpow10000 (2 * m) = inv_freq_spec rpow10000 (2 * m) ∧
    getRotaryEmbeddings cosF sinF (inv_freq rpow10000 (2 * m)) T
      = (rotaryTablesSpec cosF (inv_freq_spec rpow10000 (2 * m)) T,
         rotaryTablesSpec sinF (inv_freq_spec rpow10000 (2 * m)) T) ∧
    (∀ x1 x2 : List ℚ, x1.length = x2.length →
      rotate_half (x1 ++ x2) = (x2.map fun a => -a) ++ x1) ∧
    (∀ q k c s : List ℚ, ∀ i : Nat,
      q.length = 2 * m → k.length = 2 * m → c.length = 2 * m →
      s.length = 2 * m → i < 2 * m →
      (apply_rotary_pos_emb q k c s).1.getD i 0
          = q.getD i 0 * c.getD i 0 + (rotate_half q).getD i 0 * s.getD i 0 ∧
      (apply_rotary_pos_emb q k c s).2.getD i 0
          = k.getD i 0 * c.getD i 0 + (rotate_half k).getD i 0 * s.getD i 0) := by
  have hinv : inv_freq rpow10000 (2 * m) = inv_freq_spec rpow10000 (2 * m) := by
    simp only [inv_freq, inv_freq_spec, arangeStep2_two_mul, List.map_map,
      Nat.mul_div_cancel_left _ (by norm_num : 0 < 2)]
    apply List.map_congr_left
    intro j _
    simp only [Function.comp]
    push_cast
    ring_nf
  refine ⟨hinv, ?_, ?_, ?_⟩
  · simp only [getRotaryEmbeddings, hinv, rotaryTablesSpec, List.map_map,
      Prod.mk.injEq]
    constructor <;>
      · apply List.map_congr_left
        intro t _
        simp [Function.comp_def, List.map_append, List.map_map]
  · intro x1 x2 h
    have hl : (x1 ++ x2).length / 2 = x1.length := by
      simp [List.length_append, h]
      omega
    simp only [rotate_half, hl]
    rw [List.take_left, List.drop_left]
  · intro q k c s i hq hk hc hs hi
    have hrq : (rotate_half q).length = 2 * m := by rw [rotate_half_length, hq]
    have hrk : (rotate_half k).length = 2 * m := by rw [rotate_half_length, hk]
    constructor
    · rw [show (apply_rotary_pos_emb q k c s).1
          = List.zipWith (· + ·) (List.zipWith (· * ·) q c)
              (List.zipWith (· * ·) (rotate_half q) s) from rfl]
      rw [getD_zipWith _ _ _ i (by simp [List.length_zipWith]; omega)
            (by simp [List.length_zipWith]; omega),
          getD_zipWith _ _ _ i (by omega) (by omega),
          getD_zipWith _ _ _ i (by omega) (by omega)]
    · rw [show (apply_rotary_pos_emb q k c s).2
          = List.zipWith (· + ·) (List.zipWith (· * ·) k c)
              (List.zipWith (· * ·) (rotate_half k) s) from rfl]
      rw [getD_zipWith _ _ _ i (by simp [List.length_zipWith]; omega)
            (by simp [List.length_zipWith]; omega),
          getD_zipWith _ _ _ i (by omega) (by omega),
          getD_zipWith _ _ _ i (by omega) (by omega)]

/-- Witness for C5 at `headdim = 2`, identity transcendental stubs, and
concrete vectors. -/
theorem rope_matches_spec_witness :
    inv_freq (fun x => x) (2 * 1) = inv_freq_spec (fun x => x) (2 * 1) ∧
    (([(1 : ℚ)]).length = ([(2 : ℚ)]).length ∧
      rotate_half ([(1 : ℚ)] ++ [(2 : ℚ)])
        = (([(2 : ℚ)]).map fun a => -a) ++ [(1 : ℚ)]) ∧
    (([(1 : ℚ), 2]).length = 2 * 1 ∧ (0 : Nat) < 2 * 1 ∧
      (apply_rotary_pos_emb [(1 : ℚ), 2] [3, 4] [5, 6] [7, 8]).1.getD 0 0
        = ([(1 : ℚ), 2]).getD 0 0 * ([(5 : ℚ), 6]).getD 0 0
          + (rotate_half [(1 : ℚ), 2]).getD 0 0 * ([(7 : ℚ), 8]).getD 0 0) :=
  ⟨(rope_matches_spec (fun x => x) (fun x => x) (fun x => x) 1 2).1,
   ⟨by decide,
    (rope_matches_spec (fun x => x) (fun x => x) (fun x => x) 1 2).2.2.1
      [(1 : ℚ)] [(2 : ℚ)] (by decide)⟩,
   ⟨by decide, by decide,
    ((rope_matches_spec (fun x => x) (fun x => x) (fun x => x) 1 2).2.2.2
      [(1 : ℚ), 2] [3, 4] [5, 6] [7, 8] 0
      (by decide) (by decide) (by decide) (by decide) (by decide)).1⟩⟩

/-! ### Forward-pipeline structure of `GPT.forward` / `Block.forward` -/

/-- Whether a normalization site holds a real `LayerNorm` or the identity
function (model.py lines 375-381: `self.ln_1 = LayerNorm(...)` vs
`self.ln_1 = lambda x: x`). -/
inductive NormKind
  | layerNormOp
  | identityOp
deriving Repr, DecidableEq

/-- The operations a forward pass applies to the activation, in order. -/
inductive Op
  | tokEmbedding
  | addAbsPosEmb
  | dropoutOp
  | norm (k : NormKind)
  | qkvProjection
  | ropeApply
  | backendCall (b : Backend)
  | outProjection
  | mlpOp
  | lmHead
deriving Repr, DecidableEq

/-- The operation sequence of `CausalSelfAttention.forward`
(model.py lines 256-354): QKV projection/reshape (266-286), then RoPE
exactly when `self.use_rope` (288-291), then the selected backend
(293-349), then the output projection (352-353). -/
def attnForwardOps (s : AttnLayerState) : List Op :=
  [Op.qkvProjection]
    ++ (if s.use_rope then [Op.ropeApply] else [])
    ++ [Op.backendCall (forwardBackendChoice s), Op.outProjection]

/-- The normalization installed at each of the two per-block sites
(model.py lines 375-381). -/
def blockNorm (cfg : GPTConfig) : NormKind :=
  if cfg.use_layer_norm then NormKind.layerNormOp else NormKind.identityOp

/-- `Block.forward` (model.py lines 386-389):
`x = x + attn(ln_1(x)); x = x + mlp(ln_2(x))`. -/
def blockOps (cfg : GPTConfig) (s : AttnLayerState) : List Op :=
  [Op.norm (blockNorm cfg)] ++ attnForwardOps s
    ++ [Op.norm (blockNorm cfg), Op.mlpOp]

/-- `GPT.forward` (model.py lines 461-493) as its operation sequence.
Line 464 asserts `t <= block_size` before anything else; lines 467-476 add
absolute position embeddings exactly when `use_rope` is off; lines 479-480
run the blocks; line 482 applies `ln_f` — always a real `LayerNorm`, created
unconditionally at line 422 — and the lm_head follows. -/
def gptForwardOps (cfg : GPTConfig) (s : AttnLayerState) (t : Nat) :
    Except String (List Op) :=
  if t ≤ cfg.block_size then
    Except.ok
      ([Op.tokEmbedding]
        ++ (if cfg.use_rope then [] else [Op.addAbsPosEmb])
        ++ [Op.dropoutOp]
        ++ (List.replicate cfg.n_layer (blockOps cfg s)).flatten
        ++ [Op.norm NormKind.layerNormOp, Op.lmHead])
  else
    Except.error "AssertionError: Cannot forward sequence of length > block size"

/-- Helper: every layer state produced by `attnInit` copies `use_rope`
from the config (model.py line 104). -/
theorem attnInit_use_rope (cfg : GPTConfig) (env : InitEnv)
    (s : AttnLayerState) (hinit : attnInit cfg env = Except.ok s) :
    s.use_rope = cfg.use_rope := by
  simp only [attnInit] at hinit
  split at hinit
  · split at hinit
    · cases hinit; rfl
    · split at hinit
      · cases hinit; rfl
      · cases hinit
  · split at hinit
    · cases hinit; rfl
    · cases hinit; rfl

/-- Helper: membership in a flatten of replicated lists. -/
theorem mem_flatten_replicate (a : Op) (n : Nat) (l : List Op) :
    a ∈ (List.replicate n l).flatten ↔ n ≠ 0 ∧ a ∈ l := by
  induction n with
  | zero => simp
  | succ k ih =>
    simp only [List.replicate_succ, List.flatten_cons, List.mem_append, ih]
    constructor
    · rintro (h | ⟨-, h⟩) <;> exact ⟨Nat.succ_ne_zero k, h⟩
    · rintro ⟨-, h⟩
      exact Or.inl h

/-- C6: the two positional schemes are mutually exclusive per forward pass:
RoPE is applied (inside each attention layer, after the QKV
projection/reshape and before the backend call) exactly when `use_rope` is
on, absolute position embeddings are added exactly when `use_rope` is off,
and never both in the same pass. -/
theorem positional_schemes_exclusive (cfg : GPTConfig) (env : InitEnv)
    (s : AttnLayerState) (hinit : attnInit cfg env = Except.ok s)
    (t : Nat) (ht : t ≤ cfg.block_size) (hlayers : 0 < cfg.n_layer)
    (ops : List Op) (hops : gptForwardOps cfg s t = Except.ok ops) :
    ((Op.ropeApply ∈ ops) ↔ cfg.use_rope = true) ∧
    ((Op.addAbsPosEmb ∈ ops) ↔ cfg.use_rope = false) ∧
    ¬(Op.ropeApply ∈ ops ∧ Op.addAbsPosEmb ∈ ops) ∧
    (cfg.use_rope = true →
      ∃ pre post, attnForwardOps s = pre ++ [Op.ropeApply] ++ post ∧
        Op.qkvProjection ∈ pre ∧
        Op.backendCall (forwardBackendChoice s) ∈ post) := by
  have hrope := attnInit_use_rope cfg env s hinit
  rw [gptForwardOps, if_pos ht] at hops
  cases hops
  cases hur : cfg.use_rope
  · rw [hur] at hrope
    refine ⟨?_, ?_, ?_, ?_⟩
    · simp [hur, List.mem_append, mem_flatten_replicate, blockOps,
        attnForwardOps, hrope]
    · simp [hur, List.mem_append]
    · rintro ⟨h1, -⟩
      simp [hur, List.mem_append, List.mem_flatten, List.mem_replicate,
        and_assoc, blockOps, attnForwardOps, hrope] at h1
    · intro h
      cases h
  · rw [hur] at hrope
    refine ⟨?_, ?_, ?_, ?_⟩
    · simp [hur, List.mem_append, mem_flatten_replicate, blockOps,
        attnForwardOps, hrope, Nat.pos_iff_ne_zero.mp hlayers]
    · simp [hur, List.mem_append, mem_flatten_replicate, blockOps,
        attnForwardOps, hrope]
    · rintro ⟨-, h2⟩
      simp [hur, List.mem_append, List.mem_flatten, List.mem_replicate,
        and_assoc, blockOps, attnForwardOps, hrope] at h2
    · intro _
      exact ⟨[Op.qkvProjection],
        [Op.backendCall (forwardBackendChoice s), Op.outProjection],
        by simp [attnForwardOps, hrope], by simp, by simp⟩

/-- Witness for C6 at a concrete model configuration. -/
theorem positional_schemes_exclusive_witness :
    attnInit cfgSparseOnly envAllOk = Except.ok layerSparseActive ∧
    (4 ≤ cfgSparseOnly.block_size ∧ 0 < cfgSparseOnly.n_layer) ∧
    (∃ ops, gptForwardOps cfgSparseOnly layerSparseActive 4 = Except.ok ops ∧
      (((Op.ropeApply ∈ ops) ↔ cfgSparseOnly.use_rope = true) ∧
       ((Op.addAbsPosEmb ∈ ops) ↔ cfgSparseOnly.use_rope = false) ∧
       ¬(Op.ropeApply ∈ ops ∧ Op.addAbsPosEmb ∈ ops) ∧
       (cfgSparseOnly.use_rope = true →
         ∃ pre post,
           attnForwardOps layerSparseActive = pre ++ [Op.ropeApply] ++ post ∧
             Op.qkvProjection ∈ pre ∧
             Op.backendCall (forwardBackendChoice layerSparseActive) ∈ post))) :=
  ⟨rfl, ⟨by decide, by decide⟩,
    ⟨_, rfl, positional_schemes_exclusive cfgSparseOnly envAllOk
      layerSparseActive rfl 4 (by decide) (by decide) _ rfl⟩⟩

/-- C7: an input whose sequence length exceeds `block_size` is rejected by
the assert at model.py line 464 before any computation: the forward pass
produces no operations at all and the contract error propagates; the input
is never silently truncated. -/
theorem overlong_input_rejected (cfg : GPTConfig) (s : AttnLayerState)
    (t : Nat) (ht : cfg.block_size < t) :
    gptForwardOps cfg s t
      = Except.error
          "AssertionError: Cannot forward sequence of length > block size" := by
  rw [gptForwardOps, if_neg (by omega)]

/-- Witness for C7: block size 8, sequence length 9. -/
theorem overlong_input_rejected_witness :
    cfgSparseOnly.block_size < 9 ∧
    gptForwardOps cfgSparseOnly layerSparseActive 9
      = Except.error
          "AssertionError: Cannot forward sequence of length > block size" :=
  ⟨by decide, overlong_input_rejected cfgSparseOnly layerSparseActive 9 (by decide)⟩

/-- C10: every forward pass ends with a real `LayerNorm` (`ln_f`, created
unconditionally at model.py line 422, applied at line 482) followed by the
lm_head, in every configuration; with `use_layer_norm = false` the final
normalization is the only `LayerNorm` in the pass, and the two per-block
normalization sites hold the identity instead. -/
theorem final_layernorm_always (cfg : GPTConfig) (env : InitEnv)
    (s : AttnLayerState) (hinit : attnInit cfg env = Except.ok s)
    (t : Nat) (ht : t ≤ cfg.block_size)
    (ops : List Op) (hops : gptForwardOps cfg s t = Except.ok ops) :
    (∃ l, ops = l ++ [Op.norm NormKind.layerNormOp, Op.lmHead] ∧
      (cfg.use_layer_norm = false → Op.norm NormKind.layerNormOp ∉ l)) ∧
    (blockOps cfg s).count (Op.norm (blockNorm cfg)) = 2 ∧
    (cfg.use_layer_norm = false → blockNorm cfg = NormKind.identityOp) := by
  have hrope := attnInit_use_rope cfg env s hinit
  rw [gptForwardOps, if_pos ht] at hops
  cases hops
  refine ⟨⟨[Op.tokEmbedding]
      ++ (if cfg.use_rope then [] else [Op.addAbsPosEmb])
      ++ [Op.dropoutOp]
      ++ (List.replicate cfg.n_layer (blockOps cfg s)).flatten, ?_, ?_⟩, ?_, ?_⟩
  · simp [List.append_assoc]
  · intro hln
    have hbn : blockNorm cfg = NormKind.identityOp := by
      simp [blockNorm, hln]
    cases hur : cfg.use_rope <;>
      simp [List.mem_append, mem_flatten_replicate, blockOps, attnForwardOps,
        hbn, hur, hrope]
  · cases hur : s.use_rope <;>
      simp [blockOps, attnForwardOps, hur, List.count_append, List.count_cons]
  · intro hln
    simp [blockNorm, hln]

/-- Witness for C10 at a concrete model configuration. -/
theorem final_layernorm_always_witness :
    attnInit cfgSparseOnly envAllOk = Except.ok layerSparseActive ∧
    4 ≤ cfgSparseOnly.block_size ∧
    (∃ ops, gptForwardOps cfgSparseOnly layerSparseActive 4 = Except.ok ops ∧
      ((∃ l, ops = l ++ [Op.norm NormKind.layerNormOp, Op.lmHead] ∧
        (cfgSparseOnly.use_layer_norm = false →
          Op.norm NormKind.layerNormOp ∉ l)) ∧
       (blockOps cfgSparseOnly layerSparseActive).count
          (Op.norm (blockNorm cfgSparseOnly)) = 2 ∧
       (cfgSparseOnly.use_layer_norm = false →
          blockNorm cfgSparseOnly = NormKind.identityOp))) :=
  ⟨rfl, by decide,
    ⟨_, rfl, final_layernorm_always cfgSparseOnly envAllOk layerSparseActive
      rfl 4 (by decide) _ rfl⟩⟩

/-! ### Block-size truncation -/

/-- The model state `GPT.crop_block_size` touches: the recorded
`config.block_size`, the position-embedding table `transformer.wpe.weight`
(a list of rows), and, per block, the attention layer's causal-mask buffer
`block.attn.bias` when it exists (`none` models a layer without the buffer,
i.e. a flash-attention layer, cf. `hasattr` at model.py line 503; the
leading `(1, 1, ·, ·)` singleton dims are dropped). -/
structure ModelState where
  block_size : Nat
  wpe : List (List ℚ)
  attn_masks : List (Option (List (List Bool)))
deriving Repr, DecidableEq

/-- `GPT.crop_block_size` (model.py lines 495-504): assert
`block_size <= self.config.block_size` (a failing Python assert raises
before any mutation), then record the new block size, slice the
position-embedding table to its first `block_size` rows, and slice every
present causal mask to `[:, :, :block_size, :block_size]`. -/
def crop_block_size (m : ModelState) (block_size : Nat) :
    Except String ModelState :=
  if block_size ≤ m.block_size then
    Except.ok
      { block_size := block_size
        wpe := m.wpe.take block_size
        attn_masks := m.attn_masks.map (fun mask =>
          mask.map (fun b => (b.take block_size).map
            (fun row => row.take block_size))) }
  else
    Except.error "AssertionError: block_size <= self.config.block_size"

/-- C8: for a well-formed model (table and masks sized to the current block
size), truncation to any `n ≤ block_size` succeeds, records `n`, keeps
exactly the first `n` position-embedding rows, and crops every present
causal mask to `n × n`; truncation to any `n > block_size` raises the
contract error and changes nothing (no state is produced). -/
theorem crop_block_size_spec (m : ModelState) (n : Nat)
    (hwpe : m.wpe.length = m.block_size)
    (hmask : ∀ mask ∈ m.attn_masks, ∀ b ∈ mask,
      b.length = m.block_size ∧ ∀ row ∈ b, row.length = m.block_size) :
    (n ≤ m.block_size →
      ∃ m', crop_block_size m n = Except.ok m' ∧
        m'.block_size = n ∧
        m'.wpe = m.wpe.take n ∧
        m'.wpe.length = n ∧
        m'.attn_masks.length = m.attn_masks.length ∧
        ∀ mask ∈ m'.attn_masks, ∀ b ∈ mask,
          b.length = n ∧ ∀ row ∈ b, row.length = n) ∧
    (m.block_size < n →
      crop_block_size m n
        = Except.error "AssertionError: block_size <= self.config.block_size") := by
  constructor
  · intro hn
    refine ⟨{ block_size := n
              wpe := m.wpe.take n
              attn_masks := m.attn_masks.map (fun mask =>
                mask.map (fun b => (b.take n).map (fun row => row.take n))) },
            ?_, rfl, rfl, ?_, ?_, ?_⟩
    · rw [crop_block_size, if_pos hn]
    · simp [List.length_take, hwpe]
      omega
    · simp
    · intro mask hmem b hb
      simp only [List.mem_map] at hmem
      obtain ⟨mask0, hmask0, rfl⟩ := hmem
      rw [Option.mem_def, Option.map_eq_some'] at hb
      obtain ⟨b0, hb0, rfl⟩ := hb
      obtain ⟨hlen0, hrow0⟩ :=
        hmask mask0 hmask0 b0 (Option.mem_def.mpr hb0)
      constructor
      · simp [List.length_take, hlen0]
        omega
      · intro row hr
        simp only [List.mem_map] at hr
        obtain ⟨row0, hr0, rfl⟩ := hr
        have : row0.length = m.block_size :=
          hrow0 row0 (List.mem_of_mem_take hr0)
        simp [List.length_take, this]
        omega
  · intro hn
    rw [crop_block_size, if_neg (by omega)]

/-- A tiny well-formed model for the truncation witness. -/
def modelTiny : ModelState :=
  { block_size := 2
    wpe := [[1], [2]]
    attn_masks := [some [[true, false], [true, true]]] }

/-- Witness for C8: shrinking 2 → 1 succeeds and crops; growing 2 → 3 is
the contract error. -/
theorem crop_block_size_spec_witness :
    modelTiny.wpe.length = modelTiny.block_size ∧
    (∀ mask ∈ modelTiny.attn_masks, ∀ b ∈ mask,
      b.length = modelTiny.block_size ∧
      ∀ row ∈ b, row.length = modelTiny.block_size) ∧
    (1 ≤ modelTiny.block_size ∧ modelTiny.block_size < 3) ∧
    (∃ m', crop_block_size modelTiny 1 = Except.ok m' ∧
      m'.block_size = 1 ∧
      m'.wpe = modelTiny.wpe.take 1 ∧
      m'.wpe.length = 1 ∧
      m'.attn_masks.length = modelTiny.attn_masks.length ∧
      ∀ mask ∈ m'.attn_masks, ∀ b ∈ mask,
        b.length = 1 ∧ ∀ row ∈ b, row.length = 1) ∧
    crop_block_size modelTiny 3
      = Except.error "AssertionError: block_size <= self.config.block_size" :=
  ⟨by decide, by decide, by decide,
   (crop_block_size_spec modelTiny 1 (by decide) (by decide)).1 (by decide),
   (crop_block_size_spec modelTiny 3 (by decide) (by decide)).2 (by decide)⟩

/-! ### Autoregressive generation (`GPT.generate`, model.py lines 605-630)

The model itself is abstracted as a function from the (cropped) context to
the final-position logits over the vocabulary, one batch row, logits as
`List ℚ`.  Softmax sends `-inf` to probability `0` and every finite logit
to a strictly positive probability, and `torch.multinomial` returns an
index carrying positive probability — which one depends on the generator
state; this is modeled by the `rng` argument selecting an element of the
positive-probability support. -/

/-- `v, _ = torch.topk(logits, min(top_k, logits.size(-1)))` followed by
`v[:, [-1]]` (model.py line 621): the k-th largest value of the list. -/
def topkThreshold (l : List ℚ) (k : Nat) : ℚ :=
  (List.insertionSort (fun a b => a ≥ b) l).getD (k - 1) 0

/-- `logits[logits < v[:, [-1]]] = -float('Inf')` (model.py line 622):
entries strictly below the k-th largest become `-inf` (`⊥`); with
`top_k = None` the logits pass through unchanged. -/
def topkFilter (scaled : List ℚ) (top_k : Option Nat) : List (WithBot ℚ) :=
  match top_k with
  | none => scaled.map (fun z => (z : WithBot ℚ))
  | some k0 =>
    let k := min k0 scaled.length
    let thr := topkThreshold scaled k
    scaled.map (fun z => if z < thr then (⊥ : WithBot ℚ) else (z : WithBot ℚ))

/-- Indices receiving positive probability from
`F.softmax(logits, dim=-1)` (model.py line 624): exactly the non-`-inf`
entries, since `exp` is positive and `exp(-inf) = 0`. -/
def supportOf (filtered : List (WithBot ℚ)) (n : Nat) : List Nat :=
  (List.range n).filter (fun j => filtered.getD j ⊥ ≠ ⊥)

/-- One generation step (model.py lines 616-626): scale the final-position
logits by the temperature, apply the optional top-k cutoff, softmax, and
`torch.multinomial(probs, num_samples=1)` — the sampled index is some
element of the positive-probability support, selected here by `rng`;
`none` only if the support is empty. -/
def sampleStep (logits : List ℚ) (temperature : ℚ) (top_k : Option Nat)
    (rng : Nat) : Option Nat :=
  let scaled := logits.map (fun z => z / temperature)
  let filtered := topkFilter scaled top_k
  let support := supportOf filtered logits.length
  support[rng % support.length]?

/-- `GPT.generate` (model.py lines 605-630): for `max_new_tokens`
iterations, crop the context to the last `block_size` tokens, query the
model for the final-position logits, sample one token, and append it.
`rngs` is the stream of sampler states consumed one per step. -/
def generate (model : List Nat → List ℚ) (block_size : Nat)
    (idx : List Nat) (max_new_tokens : Nat) (temperature : ℚ)
    (top_k : Option Nat) (rngs : List Nat) : Option (List Nat) :=
  match max_new_tokens with
  | 0 => some idx
  | Nat.succ rest =>
    let idx_cond := if idx.length ≤ block_size then idx
      else idx.drop (idx.length - block_size)
    let logits := model idx_cond
    match sampleStep logits temperature top_k (rngs.headD 0) with
    | none => none
    | some idx_next =>
      generate model block_size (idx ++ [idx_next]) rest temperature
        top_k rngs.tail

/-- The maximum logit is attained at index `i` and nowhere else. -/
def uniqueArgmax (l : List ℚ) (i : Nat) : Prop :=
  i < l.length ∧ ∀ j, j < l.length → j ≠ i → l.getD j 0 < l.getD i 0

/-- Helper: a filter of `range n` whose predicate holds exactly at `i < n`
is `[i]`. -/
theorem filter_range_singleton (n i : Nat) (p : Nat → Bool) (hi : i < n)
    (hp : ∀ j, j < n → (p j = true ↔ j = i)) :
    (List.range n).filter p = [i] := by
  induction n with
  | zero => omega
  | succ m ih =>
    rw [List.range_succ, List.filter_append]
    by_cases him : i = m
    · subst him
      have h1 : (List.range i).filter p = [] := by
        rw [List.filter_eq_nil_iff]
        intro a ha
        have haa : a < i := List.mem_range.mp ha
        intro hpa
        have := (hp a (by omega)).mp hpa
        omega
      have h2 : List.filter p [i] = [i] := by
        simp [List.filter_cons, (hp i (by omega)).mpr rfl]
      rw [h1, h2]
      rfl
    · have hi2 : i < m := by omega
      have hm : p m = false := by
        cases hpm : p m with
        | false => rfl
        | true => exact absurd ((hp m (by omega)).mp hpm).symm him
      have h2 : List.filter p [m] = [] := by simp [List.filter_cons, hm]
      rw [ih hi2 (fun j hj => hp j (by omega)), h2]
      rfl

/-- Helper: with `top_k = 1`, temperature `> 0`, and a unique argmax `i`,
one sampling step returns `i` no matter what the sampler state is: the
`top_k` cutoff keeps only the maximum, so the softmax support is `[i]`. -/
theorem sampleStep_topk1 (l : List ℚ) (temperature : ℚ) (i rng : Nat)
    (htemp : 0 < temperature) (hargmax : uniqueArgmax l i) :
    sampleStep l temperature (some 1) rng = some i := by
  obtain ⟨hi, hmax⟩ := hargmax
  set scaled := l.map (fun z => z / temperature) with hscaled
  have hslen : scaled.length = l.length := by simp [hscaled]
  have hsi : i < scaled.length := by omega
  have hsmax : ∀ j, j < scaled.length → j ≠ i →
      scaled.getD j 0 < scaled.getD i 0 := by
    intro j hj hne
    have hjl : j < l.length := by omega
    have hl := hmax j hjl hne
    rw [List.getD_eq_getElem _ _ hjl, List.getD_eq_getElem _ _ hi] at hl
    rw [List.getD_eq_getElem _ _ hj, List.getD_eq_getElem _ _ hsi]
    simp only [hscaled, List.getElem_map]
    exact (div_lt_div_iff_of_pos_right htemp).mpr hl
  have hk : min 1 scaled.length = 1 := by omega
  set sorted := List.insertionSort (fun a b : ℚ => a ≥ b) scaled with hsorted
  have hperm : sorted.Perm scaled := List.perm_insertionSort _ _
  have hlen : sorted.length = scaled.length := hperm.length_eq
  have hnenil : sorted ≠ [] := by
    intro h
    rw [h] at hlen
    simp at hlen
    omega
  obtain ⟨hd, tl, hcons⟩ := List.exists_cons_of_ne_nil hnenil
  have hsort : List.Sorted (fun a b : ℚ => a ≥ b) sorted :=
    List.sorted_insertionSort _ _
  have hge : ∀ x ∈ scaled, x ≤ hd := by
    intro x hx
    have hx2 : x ∈ sorted := hperm.mem_iff.mpr hx
    rw [hcons] at hx2
    rcases List.mem_cons.mp hx2 with h | h
    · exact le_of_eq h
    · have hs2 := hsort
      rw [hcons] at hs2
      exact (List.sorted_cons.mp hs2).1 x h
  have hhd_mem : hd ∈ scaled :=
    hperm.mem_iff.mp (by rw [hcons]; exact List.mem_cons_self _ _)
  have hthr : hd = scaled.getD i 0 := by
    obtain ⟨j, hj, hjv⟩ := List.mem_iff_getElem.mp hhd_mem
    by_cases hji : j = i
    · subst hji
      rw [List.getD_eq_getElem _ _ hsi]
      exact hjv.symm
    · exfalso
      have h1 := hsmax j hj hji
      have h2 : scaled.getD i 0 ≤ hd := by
        rw [List.getD_eq_getElem _ _ hsi]
        exact hge _ (List.getElem_mem hsi)
      rw [List.getD_eq_getElem _ _ hj] at h1
      have h3 : scaled[j] < hd := lt_of_lt_of_le h1 h2
      rw [hjv] at h3
      exact lt_irrefl _ h3
  have htopk : topkThreshold scaled (min 1 scaled.length) = hd := by
    rw [hk]
    simp [topkThreshold, ← hsorted, hcons]
  have hfeq : topkFilter scaled (some 1)
      = scaled.map (fun z =>
          if z < hd then (⊥ : WithBot ℚ) else (z : WithBot ℚ)) := by
    simp only [topkFilter, htopk]
  have hfval : ∀ j, j < l.length →
      ((topkFilter scaled (some 1)).getD j ⊥ ≠ ⊥ ↔ j = i) := by
    intro j hj
    have hjs : j < scaled.length := by omega
    have hjf : j < (topkFilter scaled (some 1)).length := by
      rw [hfeq]
      simpa using hjs
    rw [List.getD_eq_getElem _ _ hjf]
    by_cases hji : j = i
    · subst hji
      have hnlt : ¬ (scaled[j] < hd) := by
        rw [hthr, List.getD_eq_getElem _ _ hsi]
        exact lt_irrefl _
      simp [hfeq, hnlt]
    · have hlt : scaled[j] < hd := by
        have hx := hsmax j hjs hji
        rw [List.getD_eq_getElem _ _ hjs] at hx
        rw [hthr]
        exact hx
      simp [hfeq, hlt, hji]
  have hsup : supportOf (topkFilter scaled (some 1)) l.length = [i] := by
    rw [supportOf]
    apply filter_range_singleton l.length i _ hi
    intro j hj
    simpa using hfval j hj
  show (supportOf (topkFilter scaled (some 1)) l.length)[rng %
    (supportOf (topkFilter scaled (some 1)) l.length).length]? = some i
  rw [hsup]
  simp [Nat.mod_one]

/-- C9 (amended): with `top_k = 1` and any temperature `> 0`, **provided
the maximum final-position logit is uniquely attained at every reachable
context**, each sampling step returns the argmax token regardless of the
sampler state, each generation step appends that argmax token, and the
entire generated sequence is independent of the random-number stream. -/
theorem generate_topk1_deterministic_argmax (model : List Nat → List ℚ)
    (block_size : Nat) (temperature : ℚ) (argmaxOf : List Nat → Nat)
    (htemp : 0 < temperature)
    (hmodel : ∀ ctx, uniqueArgmax (model ctx) (argmaxOf ctx)) :
    (∀ logits i rng, uniqueArgmax logits i →
      sampleStep logits temperature (some 1) rng = some i) ∧
    (∀ n idx rngs,
      generate model block_size idx (n + 1) temperature (some 1) rngs
        = generate model block_size
            (idx ++ [argmaxOf (if idx.length ≤ block_size then idx
                else idx.drop (idx.length - block_size))])
            n temperature (some 1) rngs.tail) ∧
    (∀ n idx rngs1 rngs2,
      generate model block_size idx n temperature (some 1) rngs1
        = generate model block_size idx n temperature (some 1) rngs2) := by
  have hstep : ∀ logits i rng, uniqueArgmax logits i →
      sampleStep logits temperature (some 1) rng = some i :=
    fun logits i rng h => sampleStep_topk1 logits temperature i rng htemp h
  have hunroll : ∀ n idx rngs,
      generate model block_size idx (n + 1) temperature (some 1) rngs
        = generate model block_size
            (idx ++ [argmaxOf (if idx.length ≤ block_size then idx
                else idx.drop (idx.length - block_size))])
            n temperature (some 1) rngs.tail := by
    intro n idx rngs
    rw [generate]
    rw [hstep _ _ _ (hmodel (if idx.length ≤ block_size then idx
      else idx.drop (idx.length - block_size)))]
  refine ⟨hstep, hunroll, ?_⟩
  intro n
  induction n with
  | zero => intro idx rngs1 rngs2; rfl
  | succ k ih =>
    intro idx rngs1 rngs2
    rw [hunroll, hunroll]
    exact ih _ _ _

/-- Witness for C9's amended claim: a model with strict argmax token `1`,
temperature `1`; two different sampler streams give the same sequence. -/
theorem generate_topk1_deterministic_argmax_witness :
    (0 : ℚ) < 1 ∧
    uniqueArgmax [(1 : ℚ), 3, 2] 1 ∧
    generate (fun _ => [(1 : ℚ), 3, 2]) 8 [0] 2 1 (some 1) [0, 4]
      = generate (fun _ => [(1 : ℚ), 3, 2]) 8 [0] 2 1 (some 1) [7, 9] := by
  have hq : (0 : ℚ) < 1 := by norm_num
  have hu : uniqueArgmax [(1 : ℚ), 3, 2] 1 := by
    refine ⟨by norm_num, ?_⟩
    intro j hj hne
    simp only [List.length_cons, List.length_nil] at hj
    interval_cases j
    · show (1 : ℚ) < 3
      norm_num
    · exact absurd rfl hne
    · show (2 : ℚ) < 3
      norm_num
  exact ⟨hq, hu,
    (generate_topk1_deterministic_argmax (fun _ => [(1 : ℚ), 3, 2]) 8 1
        (fun _ => 1) hq (fun _ => hu)).2.2 2 [0] [0, 4] [7, 9]⟩

/-- C9 counterexample: with tied maximal logits, `top_k = 1` keeps every
tied entry (the filter drops only entries strictly below the threshold),
softmax spreads positive probability over all of them, and
`torch.multinomial` picks one depending on the sampler state — so two runs
with different seeds extend the context differently, refuting seed
independence as universally claimed. -/
theorem generate_seed_dependent_on_ties :
    generate (fun _ => [(1 : ℚ), 1]) 8 [0] 1 1 (some 1) [0] = some [0, 0] ∧
    generate (fun _ => [(1 : ℚ), 1]) 8 [0] 1 1 (some 1) [1] = some [0, 1] ∧
    generate (fun _ => [(1 : ℚ), 1]) 8 [0] 1 1 (some 1) [0]
      ≠ generate (fun _ => [(1 : ℚ), 1]) 8 [0] 1 1 (some 1) [1] := by
  have h0 : sampleStep [(1 : ℚ), 1] 1 (some 1) 0 = some 0 := by
    simp [sampleStep, topkFilter, topkThreshold, supportOf,
      List.insertionSort, List.orderedInsert, List.range_succ]
  have h1 : sampleStep [(1 : ℚ), 1] 1 (some 1) 1 = some 1 := by
    simp [sampleStep, topkFilter, topkThreshold, supportOf,
      List.insertionSort, List.orderedInsert, List.range_succ]
  have g0 : generate (fun _ => [(1 : ℚ), 1]) 8 [0] 1 1 (some 1) [0]
      = some [0, 0] := by
    rw [generate]
    simp only [List.length_cons, List.length_nil, List.headD]
    rw [h0]
    rfl
  have g1 : generate (fun _ => [(1 : ℚ), 1]) 8 [0] 1 1 (some 1) [1]
      = some [0, 1] := by
    rw [generate]
    simp only [List.length_cons, List.length_nil, List.headD]
    rw [h1]
    rfl
  refine ⟨g0, g1, ?_⟩
  rw [g0, g1]
  simp

end NanoGPT
